import Mathlib

/-
Verification development for the Redis-graph synchronization core of the
hydra agent (hydra_agent/redis_core/graphutils_operations.py).

The four sync handlers, the resource lookup and the link resolver are
translated from the source file.  The backing graph-store adapter
(graphutils.py), the endpoint index (graph_init.py) and the vocabulary
object are not part of the analysed sources; they are modelled from the
specification of the system (data model and GraphQueryAdapter contract)
and are marked as such in their doc comments.

Python strings are modelled as Lean strings; the string helpers below
reimplement the exact Python primitives the source uses (split on the
slash separator, split with maxsplit, rstrip of slashes, substring
containment, replace of every occurrence).  Python exceptions are an
explicit error type; state mutation is explicit state passing, so a
handler returns the graph as mutated up to the point where an exception
escapes.
-/

namespace HydraSync

/-- Prefix test on character lists. -/
def listIsPrefix : List Char → List Char → Bool
  | [], _ => true
  | _ :: _, [] => false
  | a :: as, b :: bs => a == b && listIsPrefix as bs

/-- Substring test on character lists, scanning every suffix. -/
def subListAux (n : List Char) : List Char → Bool
  | [] => n.isEmpty
  | l@(_ :: cs) => listIsPrefix n l || subListAux n cs

/-- The Python membership operator on strings: needle appears inside hay. -/
def containsSub (needle hay : String) : Bool :=
  subListAux needle.toList hay.toList

/-- Helper for splitting at the slash character. -/
def splitSlashAux : List Char → List Char → List (List Char)
  | [], acc => [acc.reverse]
  | c :: cs, acc =>
    if c == '/' then acc.reverse :: splitSlashAux cs []
    else splitSlashAux cs (c :: acc)

/-- The Python split of a string at every slash. -/
def splitSlash (s : String) : List String :=
  (splitSlashAux s.toList []).map String.mk

/-- Joining a list of strings with slashes, inverse of the unbounded split. -/
def joinSlash : List String → String
  | [] => ""
  | [x] => x
  | x :: xs => x ++ "/" ++ joinSlash xs

/-- Fuel-bounded scan implementing replacement of every occurrence. -/
def replaceAllAux (pat rep : List Char) : Nat → List Char → List Char
  | 0, l => l
  | _ + 1, [] => []
  | fuel + 1, c :: cs =>
    if !pat.isEmpty && listIsPrefix pat (c :: cs) then
      rep ++ replaceAllAux pat rep fuel ((c :: cs).drop pat.length)
    else
      c :: replaceAllAux pat rep fuel cs

/-- The Python replace of every occurrence of a nonempty pattern,
scanning left to right without overlap. -/
def replaceAll (s pat rep : String) : String :=
  String.mk (replaceAllAux pat.toList rep.toList s.toList.length s.toList)

/-- The Python rstrip of trailing slashes. -/
def pyRstripSlash (s : String) : String :=
  String.mk ((s.toList.reverse.dropWhile (fun c => c == '/')).reverse)

/-- The Python split at slashes with maxsplit three: at most four parts,
the last part keeping its inner slashes. -/
def pySplitMax3 (s : String) : List String :=
  let parts := splitSlash s
  if parts.length ≤ 4 then parts
  else parts.take 3 ++ [joinSlash (parts.drop 3)]

/-- The object id the create, replace and delete handlers derive from a
URL: a slash followed by everything after the third slash. -/
def urlDerivedId (url : String) : String :=
  "/" ++ (pySplitMax3 url).getLastD ""

/-- A lightweight reference to a collection member, holding the textual
form of its id and type fields. -/
structure MemberRef where
  aid : String
  atype : String
deriving DecidableEq

/-- Abstract textual form of the Python str() of a reference list; the
exact format never matters to the modelled behaviour, only that the
store keeps a serialized copy which eval turns back into the list. -/
def serializeRefs (l : List MemberRef) : String :=
  joinSlash (l.map fun m => m.aid ++ ":" ++ m.atype)

/-- A Python value as it appears in a resource document: a string, a
list of member references, or any other value carried with its textual
str() image. -/
inductive PyVal where
  | str (s : String)
  | refList (l : List MemberRef)
  | other (text : String)
deriving DecidableEq

/-- The Python str() of a document value. -/
def pyStr : PyVal → String
  | PyVal.str s => s
  | PyVal.refList l => serializeRefs l
  | PyVal.other t => t

/-- A resource document: an insertion-ordered mapping from field name to
value, as a Python dict. -/
abbrev Resource := List (String × PyVal)

/-- Dict lookup on a resource document. -/
def dictGet : Resource → String → Option PyVal
  | [], _ => none
  | kv :: rest, k => if kv.1 == k then some kv.2 else dictGet rest k

/-- Dict item assignment on a resource document: overwrite in place when
the key exists, append otherwise. -/
def dictSet : Resource → String → PyVal → Resource
  | [], k, v => [(k, v)]
  | kv :: rest, k, v => if kv.1 == k then (k, v) :: rest else kv :: dictSet rest k v

/-- Dict lookup on a string-valued property map. -/
def dictGetS : List (String × String) → String → Option String
  | [], _ => none
  | kv :: rest, k => if kv.1 == k then some kv.2 else dictGetS rest k

/-- The Python exceptions the translated code can raise. -/
inductive PyErr where
  | typeError
  | valueError
  | attributeError
  | indexError
  | keyError (key : String)
  | exception (msg : String)
deriving DecidableEq

/-- Modelled from the spec: a node of the backing graph store.  Per the
data model, every node carries an id attribute; resource nodes carry a
string-typed property map; collection nodes carry the instances and
members sequences, whose str()/eval() store serialization is modelled as
the identity on the structured sequences. -/
structure GNode where
  label : String
  aliasName : String
  id : String
  props : List (String × String)
  instances : Option (List MemberRef)
  members : Option (List MemberRef)
deriving DecidableEq

/-- Modelled from the spec: a directed labeled edge between two nodes,
identified by the node ids. -/
structure GEdge where
  relation : String
  srcId : String
  dstId : String
deriving DecidableEq

/-- Modelled from the spec: the state of the backing graph store. -/
structure Graph where
  nodes : List GNode
  edges : List GEdge
deriving DecidableEq

/-- The empty store. -/
def emptyGraph : Graph := { nodes := [], edges := [] }

/-- Modelled from the spec: findOne by id predicate, with any label;
absence is a normal outcome.  Stands for graphutils read at the call
sites that treat the result as a single property map. -/
def readOneById (g : Graph) (i : String) : Option GNode :=
  g.nodes.find? fun n => n.id == i

/-- Modelled from the spec: findOne by id predicate restricted to the
collection label, as the delete handler queries with a collection match
pattern. -/
def readOneCollection (g : Graph) (i : String) : Option GNode :=
  g.nodes.find? fun n => n.label == "collection" && n.id == i

/-- Modelled from the spec: findAll by id predicate, the sequence-valued
read the resource lookup performs. -/
def findAllById (g : Graph) (i : String) : List GNode :=
  g.nodes.filter fun n => n.id == i

/-- Modelled from the spec: upsert of the instances property on every
node matching the id; affecting zero nodes is a no-op. -/
def setInstances (g : Graph) (i : String) (v : List MemberRef) : Graph :=
  { g with nodes := g.nodes.map fun n =>
      if n.id == i then { n with instances := some v } else n }

/-- Modelled from the spec: upsert of the members property on every
collection-labeled node matching the id; affecting zero nodes is a
no-op. -/
def setMembers (g : Graph) (i : String) (v : List MemberRef) : Graph :=
  { g with nodes := g.nodes.map fun n =>
      if n.label == "collection" && n.id == i then { n with members := some v } else n }

/-- Modelled from the spec: deleteNode by id predicate with cascading
removal of incident edges; deleting zero nodes is a no-op. -/
def deleteNodeById (g : Graph) (i : String) : Graph :=
  { nodes := g.nodes.filter fun n => !(n.id == i),
    edges := g.edges.filter fun e => !(e.srcId == i) && !(e.dstId == i) }

/-- Modelled from the spec: createNode, which never deduplicates ids;
the node id attribute is the resource identifier taken from the id field
of the stored property map. -/
def addNode (g : Graph) (label aliasName : String) (props : List (String × String)) : Graph :=
  { g with nodes := g.nodes ++
      [{ label := label, aliasName := aliasName,
         id := (dictGetS props "@id").getD "", props := props,
         instances := none, members := none }] }

/-- Modelled from the spec: createEdge, matching one source and one
destination by label plus predicate; creates nothing and reports zero
when either side is missing. -/
def createRelation (g : Graph) (srcLabel : String) (srcPred : GNode → Bool)
    (relation : String) (dstLabel : String) (dstPred : GNode → Bool) : Graph × Nat :=
  let src := g.nodes.find? fun n => n.label == srcLabel && srcPred n
  let dst := g.nodes.find? fun n => n.label == dstLabel && dstPred n
  let newEdges : List GEdge :=
    match src, dst with
    | some s, some d => [{ relation := relation, srcId := s.id, dstId := d.id }]
    | _, _ => []
  ({ nodes := g.nodes, edges := g.edges ++ newEdges }, newEdges.length)

/-- A class definition as the handlers consult it: the class URI and the
URIs of its supported properties. -/
structure ClassDef where
  idUri : String
  supportedProps : List String
deriving DecidableEq

/-- The construction-time state of a GraphOperations object: entrypoint
URL, the doc-URL string the member handler prepends to collection ids,
the vocabulary name, and the parsed classes of the API documentation.
The vocabulary object is an external collaborator; only the pieces the
source reads are modelled. -/
structure Ctx where
  entrypointUrl : String
  docUrlStr : String
  vocabulary : String
  parsedClasses : List (String × ClassDef)
deriving DecidableEq

/-- Modelled from the spec: the endpoint classification index built by
graph_init (not among the analysed sources): the known collection
endpoint names and class endpoint names. -/
structure InitialGraph where
  collectionEndpoints : List String
  classEndpoints : List String
deriving DecidableEq

/-- An embedded-reference descriptor returned by the read handler. -/
structure EmbeddedRef where
  parentId : String
  parentType : String
  embeddedUrl : String
deriving DecidableEq

/-- Lookup of a class definition by name in the parsed classes. -/
def lookupClass : List (String × ClassDef) → String → Option ClassDef
  | [], _ => none
  | kv :: rest, k => if kv.1 == k then some kv.2 else lookupClass rest k

/-- The stringification loop of the read handler: every non-string value
of the document is replaced by its str() image. -/
def flattenResource (d : Resource) : Resource :=
  d.map fun kv =>
    match kv.2 with
    | PyVal.str s => (kv.1, PyVal.str s)
    | v => (kv.1, PyVal.str (pyStr v))

/-- The text-only property map a document is stored as. -/
def stringifyResource (d : Resource) : List (String × String) :=
  d.map fun kv => (kv.1, pyStr kv.2)

/-- Reading a members value out of a document field; values that are not
reference sequences are outside the modelled fragment. -/
def asRefList : PyVal → List MemberRef
  | PyVal.refList l => l
  | _ => []

/-- The Python list remove: drop the first element equal to the given
one. -/
def removeFirst (x : MemberRef) : List MemberRef → List MemberRef
  | [] => []
  | y :: ys => if y = x then ys else y :: removeFirst x ys

/-- The Python for-loop that removes matching elements from the list it
iterates over: the iterator index advances even when an element was
removed, so the element shifted into the vacated slot is skipped.  Fuel
starts at the list length, which bounds the number of iterations. -/
def pyFilterRemoveAux (p : MemberRef → Bool) : Nat → Nat → List MemberRef → List MemberRef
  | 0, _, l => l
  | fuel + 1, i, l =>
    if h : i < l.length then
      if p (l.get ⟨i, h⟩) then pyFilterRemoveAux p fuel (i + 1) (removeFirst (l.get ⟨i, h⟩) l)
      else pyFilterRemoveAux p fuel (i + 1) l
    else l

/-- The member-removal loop of the delete handler. -/
def pyFilterRemove (p : MemberRef → Bool) (l : List MemberRef) : List MemberRef :=
  pyFilterRemoveAux p l.length 0 l

/-- The member-shape branch of get_processing (six URL segments): read
the owning collection node, append a reference to its instances and
write them back, stringify the document, create the resource node,
commit, create the class-anchor edge, and scan the supported properties
for embedded references. -/
def memberSync (ctx : Ctx) (resourceEndpoint resourceId : String) (resource : Resource)
    (g : Graph) : Graph × Except PyErr (Option (List EmbeddedRef) × Resource) :=
  let parentId := ctx.docUrlStr ++ "EntryPoint/" ++ resourceEndpoint
  match readOneById g parentId with
  | none => (g, Except.error PyErr.typeError)
  | some parentNode =>
    let classInstances := parentNode.instances.getD []
    match dictGet resource "@id", dictGet resource "@type" with
    | none, _ => (g, Except.error (PyErr.keyError "@id"))
    | some _, none => (g, Except.error (PyErr.keyError "@type"))
    | some vId, some vTy =>
      let refToAppend : MemberRef := { aid := pyStr vId, atype := pyStr vTy }
      let g1 := setInstances g parentId (classInstances ++ [refToAppend])
      let flat := flattenResource resource
      let typeName := pyStr vTy
      let idStr := pyStr vId
      let g2 := addNode g1 ("objects" ++ typeName) (typeName ++ resourceId)
                  (stringifyResource flat)
      let g3 := (createRelation g2 "classes"
                  (fun n => dictGetS n.props "type" == some resourceEndpoint)
                  ("has_" ++ typeName) ("objects" ++ typeName)
                  (fun n => n.id == idStr)).1
      (g3,
        match lookupClass ctx.parsedClasses typeName with
        | none => Except.error (PyErr.keyError typeName)
        | some classDoc =>
          let classUris := ctx.parsedClasses.map fun c => c.2.idUri
          let embedded := (classDoc.supportedProps.filter fun p => classUris.contains p).map
            fun p => { parentId := idStr, parentType := typeName, embeddedUrl := p }
          Except.ok (some embedded, flat))

/-- The collection-shape branch of get_processing (two URL segments):
overwrite the members property of the collection node with the member
list of the fetched document. -/
def collectionSync (ctx : Ctx) (entrypoint resourceEndpoint : String) (resource : Resource)
    (g : Graph) : Graph × Except PyErr (Option (List EmbeddedRef) × Resource) :=
  let collectionId := ctx.vocabulary ++ ":" ++ entrypoint ++ "/" ++ resourceEndpoint
  match dictGet resource "members" with
  | none => (g, Except.error (PyErr.keyError "members"))
  | some v => (setMembers g collectionId (asRefList v), Except.ok (some [], resource))

/-- get_processing: normalize the URL (rstrip slashes, replace every
occurrence of the entrypoint URL by the EntryPoint literal, split at
slashes) and dispatch on the segment count: six is the member shape,
two the collection shape, anything else only returns None. -/
def getProcessing (ctx : Ctx) (url : String) (resource : Resource) (g : Graph) :
    Graph × Except PyErr (Option (List EmbeddedRef) × Resource) :=
  match splitSlash (replaceAll (pyRstripSlash url) ctx.entrypointUrl "EntryPoint") with
  | [_, _, _, _, resourceEndpoint, resourceId] =>
      memberSync ctx resourceEndpoint resourceId resource g
  | [entrypoint, resourceEndpoint] =>
      collectionSync ctx entrypoint resourceEndpoint resource g
  | _ => (g, Except.ok (none, resource))

/-- put_processing: inject the URL-derived id into the new object and
delegate to get_processing. -/
def putProcessing (ctx : Ctx) (url : String) (newObject : Resource) (g : Graph) :
    Graph × Except PyErr (Option (List EmbeddedRef) × Resource) :=
  let obj2 := dictSet newObject "@id" (PyVal.str (urlDerivedId url))
  getProcessing ctx url obj2 g

/-- The tail of delete_processing after the node delete: unpack the
normalized URL into exactly three segments (raising otherwise), read the
collection node, run the member-removal loop and write the members
back. -/
def deleteFinish (ctx : Ctx) (g1 : Graph) (parts : List String) : Graph × Except PyErr Unit :=
  match parts with
  | [entrypoint, resourceEndpoint, resourceId] =>
    let collectionId := ctx.vocabulary ++ ":" ++ entrypoint ++ "/" ++ resourceEndpoint
    match readOneCollection g1 collectionId with
    | none => (g1, Except.error PyErr.typeError)
    | some node =>
      let ms := node.members.getD []
      let ms2 := pyFilterRemove (fun m => containsSub resourceId m.aid) ms
      (setMembers g1 collectionId ms2, Except.ok ())
  | _ => (g1, Except.error PyErr.valueError)

/-- delete_processing: delete the node whose id is the URL-derived
object id, then update the owning collection members. -/
def deleteProcessing (ctx : Ctx) (url : String) (g : Graph) : Graph × Except PyErr Unit :=
  let g1 := deleteNodeById g (urlDerivedId url)
  deleteFinish ctx g1 (splitSlash (replaceAll (pyRstripSlash url) ctx.entrypointUrl "EntryPoint"))

/-- post_processing: inject the URL-derived id into the updated object,
run delete_processing, then get_processing; an exception of the delete
step propagates. -/
def postProcessing (ctx : Ctx) (url : String) (updatedObject : Resource) (g : Graph) :
    Graph × Except PyErr (Option (List EmbeddedRef) × Resource) :=
  let obj2 := dictSet updatedObject "@id" (PyVal.str (urlDerivedId url))
  match deleteProcessing ctx url g with
  | (g1, Except.error e) => (g1, Except.error e)
  | (g1, Except.ok _) => getProcessing ctx url obj2 g1

/-- The possible values of the resource lookup: a single property map or
a sequence of property maps. -/
inductive GetRes where
  | single (props : List (String × String))
  | multi (rows : List (List (String × String)))
deriving DecidableEq

/-- Python truthiness of an optional string argument. -/
def truthyS : Option String → Bool
  | none => false
  | some s => !(s == "")

/-- get_resource: the dual-mode lookup.  With neither URL nor type the
configuration exception is raised.  With a URL, the endpoint index is
consulted (dereferencing it raises when it was not supplied), collection
shapes report a miss, class shapes read by the slash-prefixed final URL
segment and return the single property map only when exactly one node
matches.  With a type, the filter map is conjoined into one predicate
and the full match sequence is returned. -/
def getResource (g : Graph) (url : Option String) (initialGraph : Option InitialGraph)
    (resourceType : Option String) (filters : List (String × String)) :
    Except PyErr (Option GetRes) :=
  if !truthyS url && !truthyS resourceType then
    Except.error (PyErr.exception "ERR: You should set at leasturl OR resource_type")
  else if truthyS url then
    match initialGraph with
    | none => Except.error PyErr.attributeError
    | some ig =>
      let urlList := splitSlash (pyRstripSlash (url.getD ""))
      let lastSeg := urlList.getLastD ""
      if ig.collectionEndpoints.contains lastSeg then Except.ok none
      else if urlList.length < 2 then Except.error PyErr.indexError
      else
        let sndLast := urlList.getD (urlList.length - 2) ""
        if ig.collectionEndpoints.contains sndLast then Except.ok none
        else if ig.classEndpoints.contains sndLast then
          match findAllById g ("/" ++ lastSeg) with
          | [r] => Except.ok (some (GetRes.single r.props))
          | _ => Except.ok none
        else Except.ok none
  else
    match resourceType with
    | some rt =>
      let rows := g.nodes.filter fun n =>
        n.label == ("objects" ++ rt) &&
          (filters.all fun kv => dictGetS n.props kv.1 == some kv.2)
      Except.ok (some (GetRes.multi (rows.map fun n => n.props)))
    | none => Except.ok none

/-- link_resources: look the referenced URL up (the source passes no
endpoint index along), return the diagnostic string on a miss, and
otherwise create the parent-to-referent edge and return the stringified
creation count. -/
def linkResources (parentId parentType nodeUrl : String) (g : Graph) :
    Graph × Except PyErr String :=
  match getResource g (some nodeUrl) none none [] with
  | Except.error e => (g, Except.error e)
  | Except.ok none =>
      (g, Except.ok ("\n Embedded link " ++ nodeUrl ++ "cannot be fetched"))
  | Except.ok (some (GetRes.single props)) =>
      match dictGetS props "@type" with
      | none => (g, Except.error (PyErr.keyError "@type"))
      | some ty =>
        match dictGetS props "@id" with
        | none => (g, Except.error (PyErr.keyError "@id"))
        | some rid =>
          let res := createRelation g ("objects" ++ parentType)
              (fun n => n.id == parentId) ("has_" ++ ty) ("objects" ++ ty)
              (fun n => n.id == rid)
          (res.1, Except.ok (toString res.2))
  | Except.ok (some (GetRes.multi _)) => (g, Except.error PyErr.typeError)

/-- The id-injection step of put_processing viewed with the payload
passed by reference: the heap slot holding the caller object is updated
in place with the URL-derived id. -/
def heapInjectId (heap : List Resource) (r : Nat) (url : String) : List Resource :=
  heap.set r (dictSet (heap.getD r []) "@id" (PyVal.str (urlDerivedId url)))

/-- put_processing with the payload passed by reference: the injection
mutates the caller slot, then get_processing runs on the mutated
object. -/
def putProcessingByRef (ctx : Ctx) (url : String) (heap : List Resource) (r : Nat)
    (g : Graph) :
    List Resource × (Graph × Except PyErr (Option (List EmbeddedRef) × Resource)) :=
  let heap2 := heapInjectId heap r url
  (heap2, getProcessing ctx url (heap2.getD r []) g)

/-- post_processing with the payload passed by reference: the injection
mutates the caller slot before the delete and read steps run. -/
def postProcessingByRef (ctx : Ctx) (url : String) (heap : List Resource) (r : Nat)
    (g : Graph) :
    List Resource × (Graph × Except PyErr (Option (List EmbeddedRef) × Resource)) :=
  let heap2 := heapInjectId heap r url
  (heap2,
    match deleteProcessing ctx url g with
    | (g1, Except.error e) => (g1, Except.error e)
    | (g1, Except.ok _) => getProcessing ctx url (heap2.getD r []) g1)

/-- Fixture for claim C1: a context whose entrypoint URL prefixes the
member URLs. -/
def ctx1c : Ctx :=
  { entrypointUrl := "http://host/api", docUrlStr := "D:", vocabulary := "vocab",
    parsedClasses := [] }

/-- Fixture for claim C1: a store holding the Drone collection with two
members whose ids share the trailing digit. -/
def g1c : Graph :=
  { nodes := [{ label := "collection", aliasName := "", id := "vocab:EntryPoint/Drone",
                props := [], instances := none,
                members := some [{ aid := "/Drone/12", atype := "Drone" },
                                 { aid := "/Drone/1", atype := "Drone" }] }],
    edges := [] }

/-- Fixture for claim C2: an arbitrary store state. -/
def g2c : Graph :=
  { nodes := [{ label := "objectsDrone", aliasName := "Drone7", id := "/Drone/7",
                props := [("@id", "/Drone/7"), ("@type", "Drone")],
                instances := none, members := none }],
    edges := [] }

/-- Fixture for claim C3: the context of the counterexample and the
witness. -/
def ctx3c : Ctx :=
  { entrypointUrl := "http://host/api", docUrlStr := "D:", vocabulary := "vocab",
    parsedClasses := [] }

/-- Fixture for claim C4: a context documenting the Drone class. -/
def ctx4c : Ctx :=
  { entrypointUrl := "http://host/api", docUrlStr := "D:", vocabulary := "vocab",
    parsedClasses := [("Drone", { idUri := "vocab:Drone", supportedProps := [] })] }

/-- Fixture for claim C4: the cached copy of the old object next to its
collection node. -/
def g4c : Graph :=
  { nodes := [{ label := "objectsDrone", aliasName := "Drone1", id := "/api/Drone/1",
                props := [("@id", "/api/Drone/1"), ("@type", "Drone"),
                          ("name", "X1"), ("model", "A")],
                instances := none, members := none },
              { label := "collection", aliasName := "", id := "vocab:EntryPoint/Drone",
                props := [], instances := some [],
                members := some [{ aid := "/api/Drone/1", atype := "Drone" }] }],
    edges := [] }

/-- Fixture for claim C4: the replacement payload without the old model
field. -/
def res4 : Resource := [("@type", PyVal.str "Drone"), ("name", PyVal.str "X2")]

/-- Fixture for claim C4: the endpoint index of the lookup. -/
def ig4c : InitialGraph := { collectionEndpoints := [], classEndpoints := ["Drone"] }

/-- Fixture for claim C5: the context. -/
def ctx5c : Ctx :=
  { entrypointUrl := "http://host/api", docUrlStr := "D:", vocabulary := "vocab",
    parsedClasses := [] }

/-- Fixture for claim C5: a store holding a node whose id matches the
object id derived from an unsupported-shape URL. -/
def g5c : Graph :=
  { nodes := [{ label := "objectsThing", aliasName := "Thingx", id := "/other/x",
                props := [("@id", "/other/x")], instances := none, members := none }],
    edges := [] }

/-- Fixture for claim C6: a context whose entrypoint URL does not occur
in the member URL, so the URL keeps its six raw segments. -/
def ctx6c : Ctx :=
  { entrypointUrl := "http://nope", docUrlStr := "D:", vocabulary := "vocab",
    parsedClasses := [("Drone", { idUri := "vocab:Drone", supportedProps := [] })] }

/-- Fixture for claim C6: the member URL of the round trip. -/
def url6c : String := "http://host/api/Drone/1"

/-- Fixture for claim C6: the store before the read sync, holding the
owning collection node. -/
def g6c : Graph :=
  { nodes := [{ label := "collection", aliasName := "", id := "D:EntryPoint/Drone",
                props := [], instances := some [], members := none }],
    edges := [] }

/-- Fixture for claim C6: the synced member document. -/
def res6 : Resource :=
  [("@id", PyVal.str "/Drone/1"), ("@type", PyVal.str "Drone"), ("name", PyVal.str "X1")]

/-- Fixture for claim C6: the endpoint index that classifies Drone as a
class endpoint. -/
def ig6c : InitialGraph := { collectionEndpoints := [], classEndpoints := ["Drone"] }

/-- Fixture for claim C7: the context of the witness. -/
def ctx7c : Ctx :=
  { entrypointUrl := "http://zz", docUrlStr := "D:", vocabulary := "vocab",
    parsedClasses := [("Drone", { idUri := "vocab:Drone", supportedProps := [] })] }

/-- Fixture for claim C7: the member URL of the witness. -/
def url7c : String := "http://h7/api/Drone/1"

/-- Fixture for claim C7: the owning collection node with one existing
instance reference. -/
def node7 : GNode :=
  { label := "collection", aliasName := "", id := "D:EntryPoint/Drone",
    props := [], instances := some [{ aid := "/Drone/9", atype := "Drone" }],
    members := none }

/-- Fixture for claim C7: the store of the witness. -/
def g7c : Graph := { nodes := [node7], edges := [] }

/-- Fixture for claim C7: the synced member document. -/
def res7 : Resource := [("@id", PyVal.str "/Drone/1"), ("@type", PyVal.str "Drone")]

/-- Fixture for claim C8: the context. -/
def ctx8c : Ctx :=
  { entrypointUrl := "http://host8/api", docUrlStr := "D:", vocabulary := "vocab",
    parsedClasses := [] }

/-- Fixture for claim C8: a store where the deleted id was never synced:
no node carries it and the members list does not contain it. -/
def g8c : Graph :=
  { nodes := [{ label := "collection", aliasName := "", id := "vocab:EntryPoint/Drone",
                props := [], instances := some [{ aid := "/Drone/12", atype := "Drone" }],
                members := some [{ aid := "/Drone/12", atype := "Drone" }] }],
    edges := [] }

/-- Fixture for claim C9: the context of the counterexample. -/
def ctx9c : Ctx :=
  { entrypointUrl := "http://host/api", docUrlStr := "D:", vocabulary := "vocab",
    parsedClasses := [] }

/-- Fixture for claim C10: the context of the witness. -/
def ctx10c : Ctx :=
  { entrypointUrl := "http://host/api", docUrlStr := "D:", vocabulary := "vocab",
    parsedClasses := [] }

/-- Fixture for claim C10: a heap of two caller-owned payload objects,
the first already carrying an id field. -/
def heap10 : List Resource :=
  [[("@id", PyVal.str "/old"), ("name", PyVal.str "A")], [("x", PyVal.str "y")]]

/-- Fixture for claim C10: the URL of the witness. -/
def url10c : String := "http://host/api/Drone/3"

theorem find?_append_of_some {α : Type} (p : α → Bool) (l l2 : List α) (x : α)
    (h : l.find? p = some x) : (l ++ l2).find? p = some x := by
  induction l with
  | nil => simp [List.find?] at h
  | cons a t ih =>
    rw [List.cons_append]
    cases hpa : p a with
    | true =>
      simp only [List.find?, hpa] at h ⊢
      exact h
    | false =>
      simp only [List.find?, hpa] at h ⊢
      exact ih h

theorem find?_map_setInst (i : String) (v : List MemberRef) (l : List GNode) (n : GNode)
    (h : l.find? (fun m => m.id == i) = some n) :
    (l.map fun m => if m.id == i then { m with instances := some v } else m).find?
      (fun m => m.id == i) = some { n with instances := some v } := by
  induction l with
  | nil => simp [List.find?] at h
  | cons a t ih =>
    cases ha : (a.id == i) with
    | true =>
      have han : a = n := by
        simp only [List.find?, ha] at h
        exact Option.some.inj h
      subst han
      rw [List.map_cons, if_pos ha]
      simp only [List.find?]
      have hid2 : (({ a with instances := some v } : GNode).id == i) = true := ha
      rw [hid2]
    | false =>
      simp only [List.find?, ha] at h
      rw [List.map_cons, if_neg (by simp [ha])]
      simp only [List.find?, ha]
      exact ih h

theorem readOneById_memberSync_graph (ctx : Ctx) (g : Graph) (ep rid : String)
    (resource : Resource) (node : GNode) (vId vTy : PyVal)
    (hnode : readOneById g (ctx.docUrlStr ++ "EntryPoint/" ++ ep) = some node)
    (hid : dictGet resource "@id" = some vId)
    (hty : dictGet resource "@type" = some vTy) :
    readOneById (memberSync ctx ep rid resource g).1 (ctx.docUrlStr ++ "EntryPoint/" ++ ep)
      = some { node with instances := some (node.instances.getD []
          ++ [{ aid := pyStr vId, atype := pyStr vTy }]) } := by
  simp only [memberSync]
  rw [hnode, hid, hty]
  have h1 : readOneById (setInstances g (ctx.docUrlStr ++ "EntryPoint/" ++ ep)
      (node.instances.getD [] ++ [{ aid := pyStr vId, atype := pyStr vTy }]))
      (ctx.docUrlStr ++ "EntryPoint/" ++ ep)
      = some { node with instances := some (node.instances.getD []
          ++ [{ aid := pyStr vId, atype := pyStr vTy }]) } :=
    find?_map_setInst _ _ _ _ hnode
  exact find?_append_of_some _ _ _ _ h1

theorem deleteFinish_err_of_len (ctx : Ctx) (g1 : Graph) :
    ∀ parts : List String, parts.length ≠ 3 →
      (deleteFinish ctx g1 parts).2 = Except.error PyErr.valueError
  | [], _ => rfl
  | [_], _ => rfl
  | [_, _], _ => rfl
  | [_, _, _], h => absurd rfl h
  | _ :: _ :: _ :: _ :: _, _ => rfl

theorem getD_set_self (l : List Resource) (i : Nat) (x : Resource) (h : i < l.length) :
    (l.set i x).getD i [] = x := by
  induction l generalizing i with
  | nil => simp at h
  | cons a t ih =>
    cases i with
    | zero => rfl
    | succ j =>
      simp only [List.set, List.getD, List.get?]
      exact ih j (by simpa using h)

theorem getD_set_ne (l : List Resource) (i j : Nat) (x : Resource) (h : j ≠ i) :
    (l.set i x).getD j [] = l.getD j [] := by
  induction l generalizing i j with
  | nil => rfl
  | cons a t ih =>
    cases i with
    | zero =>
      cases j with
      | zero => exact absurd rfl h
      | succ k => rfl
    | succ i2 =>
      cases j with
      | zero => rfl
      | succ k =>
        simp only [List.set, List.getD, List.get?]
        exact ih i2 k (by omega)

theorem dictGet_dictSet_self (d : Resource) (k : String) (v : PyVal) :
    dictGet (dictSet d k v) k = some v := by
  induction d with
  | nil => simp [dictSet, dictGet]
  | cons kv rest ih =>
    by_cases hk : (kv.1 == k) = true
    · simp [dictSet, hk, dictGet]
    · simp only [dictSet, hk]
      rw [if_neg (by simp [hk])]
      simp only [dictGet]
      rw [if_neg (by simp [hk])]
      exact ih

/-- Claim C1: the delete handler is claimed to remove from the owning
collection members exactly the entries whose id equals the deleted
resource id.  On the members list holding /Drone/12 and /Drone/1, a
delete of .../Drone/1 instead removes /Drone/12 (the trailing segment 1
is a substring of its id) and keeps /Drone/1 (the removal during
iteration shifts it past the iterator), so the surviving list is the
exact opposite of the claimed one. -/
theorem claim1_delete_substring_member_removal :
    ((deleteProcessing ctx1c "http://host/api/Drone/1" g1c).1.nodes.find?
        (fun n => n.id == "vocab:EntryPoint/Drone")).map GNode.members
      = some (some [{ aid := "/Drone/1", atype := "Drone" }])
    ∧ ([({ aid := "/Drone/1", atype := "Drone" } : MemberRef)]
        ≠ [({ aid := "/Drone/12", atype := "Drone" } : MemberRef)]) :=
  ⟨rfl, by decide⟩

/-- Claim C2: link resolution against an unresolvable reference URL is
claimed to return a NotFound outcome, create zero edges and never
raise.  The lookup is invoked without the endpoint index argument, so
the None dereference raises an AttributeError before any outcome can be
produced; the store is returned unchanged only because the exception
escapes first. -/
theorem claim2_link_resources_raises :
    linkResources "/x" "Drone" "http://host/api/Drone/2" g2c
      = (g2c, Except.error PyErr.attributeError) := rfl

/-- Claim C3 (amended): not every failure is a returned outcome or a
swallowed condition: the delete handler raises an uncaught ValueError
whenever the URL, after rstrip of slashes and replacement of the
entrypoint URL, does not split into exactly three slash-separated
segments; the replace handler begins with the delete handler and
inherits the exception. -/
theorem claim3_delete_raises_on_bad_shape (ctx : Ctx) (url : String) (g : Graph)
    (h : (splitSlash (replaceAll (pyRstripSlash url) ctx.entrypointUrl "EntryPoint")).length
      ≠ 3) :
    (deleteProcessing ctx url g).2 = Except.error PyErr.valueError :=
  deleteFinish_err_of_len ctx (deleteNodeById g (urlDerivedId url)) _ h

/-- Claim C3 witness: a collection-shaped URL normalizes to two
segments, so the delete handler raises the ValueError there. -/
theorem claim3_witness :
    (splitSlash (replaceAll (pyRstripSlash "http://host/api/DroneCollection")
        ctx3c.entrypointUrl "EntryPoint")).length ≠ 3
    ∧ (deleteProcessing ctx3c "http://host/api/DroneCollection" emptyGraph).2
        = Except.error PyErr.valueError :=
  ⟨by decide,
   claim3_delete_raises_on_bad_shape ctx3c "http://host/api/DroneCollection" emptyGraph
     (by decide)⟩

/-- Claim C3 counterexample: the sync operations do not always complete
with an outcome or swallow the failure: deleting at a collection-shaped
URL raises an uncaught ValueError. -/
theorem claim3_counterexample :
    (deleteProcessing ctx3c "http://host/api/Drone" emptyGraph).2
      = Except.error PyErr.valueError := rfl

/-- Claim C4: after a replace sync the cache is claimed to hold exactly
the new object.  On a member URL the delete step succeeds (three
normalized segments) but the read step then sees those same three
segments, which is not its six-segment member shape, so it stores
nothing: the old node is gone, the new object is never cached and the
lookup misses instead of returning the new properties. -/
theorem claim4_replace_never_recreates :
    (postProcessing ctx4c "http://host/api/Drone/1" res4 g4c).2
      = Except.ok (none, [("@type", PyVal.str "Drone"), ("name", PyVal.str "X2"),
                          ("@id", PyVal.str "/api/Drone/1")])
    ∧ findAllById g4c "/api/Drone/1" ≠ []
    ∧ findAllById (postProcessing ctx4c "http://host/api/Drone/1" res4 g4c).1
        "/api/Drone/1" = []
    ∧ getResource (postProcessing ctx4c "http://host/api/Drone/1" res4 g4c).1
        (some "http://host/api/Drone/1") (some ig4c) none [] = Except.ok none :=
  ⟨rfl, by decide, rfl, rfl⟩

/-- Claim C5: on a URL of neither member nor collection shape every
handler is claimed to perform no graph mutation and to signal that no
sync applies.  The delete handler checks no shape: it first deletes the
node matching the URL-derived id (here emptying the store) and then
raises a ValueError instead of signalling. -/
theorem claim5_delete_mutates_and_raises_on_unsupported :
    deleteProcessing ctx5c "http://host/other/x" g5c
      = (emptyGraph, Except.error PyErr.valueError)
    ∧ findAllById g5c "/other/x" ≠ [] :=
  ⟨rfl, by decide⟩

/-- Claim C6: the read-then-lookup round trip.  The read sync stores the
member node under its document id /Drone/1, but the lookup derives its
query id from only the final URL segment, querying /1, so it reports a
miss although the node is present. -/
theorem claim6_round_trip_lookup_misses :
    (getProcessing ctx6c url6c res6 g6c).2
      = Except.ok (some [], [("@id", PyVal.str "/Drone/1"), ("@type", PyVal.str "Drone"),
                             ("name", PyVal.str "X1")])
    ∧ findAllById (getProcessing ctx6c url6c res6 g6c).1 "/Drone/1" ≠ []
    ∧ getResource (getProcessing ctx6c url6c res6 g6c).1 (some url6c) (some ig6c) none []
        = Except.ok none :=
  ⟨rfl, by decide, rfl⟩

/-- Claim C7: on a member-shaped read sync (six normalized URL
segments), with the owning collection node present, its instances
sequence afterwards is exactly the prior sequence with the reference of
the synced resource appended, hence one longer with every prior entry
unchanged. -/
theorem claim7_read_sync_appends_instance (ctx : Ctx) (g : Graph) (url : String)
    (resource : Resource) (s0 s1 s2 s3 ep rid : String) (node : GNode) (vId vTy : PyVal)
    (hsplit : splitSlash (replaceAll (pyRstripSlash url) ctx.entrypointUrl "EntryPoint")
        = [s0, s1, s2, s3, ep, rid])
    (hnode : readOneById g (ctx.docUrlStr ++ "EntryPoint/" ++ ep) = some node)
    (hid : dictGet resource "@id" = some vId)
    (hty : dictGet resource "@type" = some vTy) :
    readOneById (getProcessing ctx url resource g).1 (ctx.docUrlStr ++ "EntryPoint/" ++ ep)
      = some { node with instances := some (node.instances.getD []
          ++ [{ aid := pyStr vId, atype := pyStr vTy }]) }
    ∧ (node.instances.getD []
          ++ [({ aid := pyStr vId, atype := pyStr vTy } : MemberRef)]).length
        = (node.instances.getD []).length + 1 := by
  have hget : getProcessing ctx url resource g = memberSync ctx ep rid resource g := by
    unfold getProcessing
    rw [hsplit]
  refine ⟨?_, by simp⟩
  rw [hget]
  exact readOneById_memberSync_graph ctx g ep rid resource node vId vTy hnode hid hty

/-- Claim C7 witness: the hypotheses hold of the concrete fixture and
the conclusion evaluates there: the instance list of the Drone
collection grows from one entry to two, the new reference appended. -/
theorem claim7_witness :
    splitSlash (replaceAll (pyRstripSlash url7c) ctx7c.entrypointUrl "EntryPoint")
        = ["http:", "", "h7", "api", "Drone", "1"]
    ∧ readOneById g7c (ctx7c.docUrlStr ++ "EntryPoint/" ++ "Drone") = some node7
    ∧ dictGet res7 "@id" = some (PyVal.str "/Drone/1")
    ∧ dictGet res7 "@type" = some (PyVal.str "Drone")
    ∧ (readOneById (getProcessing ctx7c url7c res7 g7c).1
          (ctx7c.docUrlStr ++ "EntryPoint/" ++ "Drone")
        = some { node7 with instances := some (node7.instances.getD []
            ++ [{ aid := pyStr (PyVal.str "/Drone/1"),
                  atype := pyStr (PyVal.str "Drone") }]) }
      ∧ (node7.instances.getD []
            ++ [({ aid := pyStr (PyVal.str "/Drone/1"),
                   atype := pyStr (PyVal.str "Drone") } : MemberRef)]).length
          = (node7.instances.getD []).length + 1) :=
  ⟨by decide, by decide, by decide, by decide,
   claim7_read_sync_appends_instance ctx7c g7c url7c res7 "http:" "" "h7" "api" "Drone" "1"
     node7 (PyVal.str "/Drone/1") (PyVal.str "Drone")
     (by decide) (by decide) (by decide) (by decide)⟩

/-- Claim C8: deleting an id that was never synced is claimed to leave
the members untouched.  With members holding only /Drone/12 and a
delete of the absent .../Drone/1, the substring check matches /Drone/12
and empties the members list, so the missing-member delete is not a
no-op. -/
theorem claim8_delete_of_absent_id_not_noop :
    ((deleteProcessing ctx8c "http://host8/api/Drone/1" g8c).1.nodes.find?
        (fun n => n.id == "vocab:EntryPoint/Drone")).map GNode.members
      = some (some [])
    ∧ (([] : List MemberRef) ≠ [({ aid := "/Drone/12", atype := "Drone" } : MemberRef)]) :=
  ⟨rfl, by decide⟩

/-- Claim C9 (amended): the create handler injects, as the id of the
payload, the slash plus everything after the third slash of the URL
(the whole root-relative path, not the trailing path segment), and then
returns exactly what the read handler returns for that URL and the
enriched payload. -/
theorem claim9_create_delegates_with_path_id (ctx : Ctx) (url : String) (obj : Resource)
    (g : Graph) :
    putProcessing ctx url obj g
      = getProcessing ctx url (dictSet obj "@id" (PyVal.str (urlDerivedId url))) g
    ∧ dictGet (dictSet obj "@id" (PyVal.str (urlDerivedId url))) "@id"
      = some (PyVal.str (urlDerivedId url)) :=
  ⟨rfl, dictGet_dictSet_self obj "@id" (PyVal.str (urlDerivedId url))⟩

/-- Claim C9 counterexample: at the URL http://host/api/Drone/1 the
trailing path segment is 1, but the id the create handler injects is
/api/Drone/1, which differs from the segment with or without a leading
slash: the id is not derived from the trailing path segment. -/
theorem claim9_counterexample :
    putProcessing ctx9c "http://host/api/Drone/1" [("name", PyVal.str "X")] emptyGraph
      = (emptyGraph, Except.ok (none, [("name", PyVal.str "X"),
                                       ("@id", PyVal.str "/api/Drone/1")]))
    ∧ (splitSlash "http://host/api/Drone/1").getLastD "" = "1"
    ∧ ("/api/Drone/1" : String) ≠ "/" ++ (splitSlash "http://host/api/Drone/1").getLastD ""
    ∧ ("/api/Drone/1" : String) ≠ (splitSlash "http://host/api/Drone/1").getLastD "" :=
  ⟨rfl, rfl, by decide, by decide⟩

/-- Claim C10: with the payload passed by reference, both the create
and the replace handler overwrite an already-present id field of the
caller object with the URL-derived id, in the caller slot itself, and
leave every other heap slot unchanged. -/
theorem claim10_handlers_overwrite_id_in_place (ctx : Ctx) (g : Graph)
    (heap : List Resource) (r j : Nat) (url : String) (v0 : PyVal)
    (hr : r < heap.length) (hj : j ≠ r)
    (hid : dictGet (heap.getD r []) "@id" = some v0) :
    dictGet (((putProcessingByRef ctx url heap r g).1).getD r []) "@id"
        = some (PyVal.str (urlDerivedId url))
    ∧ dictGet (((postProcessingByRef ctx url heap r g).1).getD r []) "@id"
        = some (PyVal.str (urlDerivedId url))
    ∧ ((putProcessingByRef ctx url heap r g).1).getD j [] = heap.getD j []
    ∧ ((postProcessingByRef ctx url heap r g).1).getD j [] = heap.getD j [] := by
  have hput : (putProcessingByRef ctx url heap r g).1 = heapInjectId heap r url := rfl
  have hpost : (postProcessingByRef ctx url heap r g).1 = heapInjectId heap r url := rfl
  refine ⟨?_, ?_, ?_, ?_⟩
  · rw [hput]
    unfold heapInjectId
    rw [getD_set_self _ _ _ hr, dictGet_dictSet_self]
  · rw [hpost]
    unfold heapInjectId
    rw [getD_set_self _ _ _ hr, dictGet_dictSet_self]
  · rw [hput]
    unfold heapInjectId
    exact getD_set_ne _ _ _ _ hj
  · rw [hpost]
    unfold heapInjectId
    exact getD_set_ne _ _ _ _ hj

/-- Claim C10 witness: on a two-slot heap whose first object already
carries an id, both by-reference handlers overwrite that slot with the
URL-derived id and leave the second slot untouched. -/
theorem claim10_witness :
    (0 < heap10.length)
    ∧ ((1 : Nat) ≠ 0)
    ∧ dictGet (heap10.getD 0 []) "@id" = some (PyVal.str "/old")
    ∧ (dictGet (((putProcessingByRef ctx10c url10c heap10 0 emptyGraph).1).getD 0 []) "@id"
          = some (PyVal.str (urlDerivedId url10c))
      ∧ dictGet (((postProcessingByRef ctx10c url10c heap10 0 emptyGraph).1).getD 0 [])
            "@id" = some (PyVal.str (urlDerivedId url10c))
      ∧ ((putProcessingByRef ctx10c url10c heap10 0 emptyGraph).1).getD 1 []
          = heap10.getD 1 []
      ∧ ((postProcessingByRef ctx10c url10c heap10 0 emptyGraph).1).getD 1 []
          = heap10.getD 1 []) :=
  ⟨by decide, by decide, by decide,
   claim10_handlers_overwrite_id_in_place ctx10c emptyGraph heap10 0 1 url10c
     (PyVal.str "/old") (by decide) (by decide) (by decide)⟩

end HydraSync
